import Mathlib

/-
Shallow embedding of the conduit-connector-nats JetStream core:
  - src/source/jetstream/iterator.go (Iterator: Next / Ack / canAck,
    getConsumerConfig, messageToRecord, getMessagePosition)
  - src/destination/jetstream/writer.go (Writer: Write, getPublishOptions)
Go machine integers are modelled as Nat/Int with explicit modular reduction
where overflow matters (uint64 stream sequences).  The broker client is an
external collaborator: its per-call outcomes (message metadata availability,
broker ack result, publish result) enter the model as explicit parameters.
The position codec (parsePosition / marshalSDKPosition) is not among the
sources; it is modelled from the spec, see below.
-/

/- Go uint64 arithmetic wraps modulo 2^64. -/
def UINT64 : Nat := 2 ^ 64

/- Go time.Duration counts nanoseconds in an int64. -/
def timeSecond : Int := 1000000000

/- heartbeatTimeout is a default heartbeat timeout for push consumers. -/
def heartbeatTimeout : Int := 2 * timeSecond

/- nats.DeliverPolicy. -/
inductive DeliverPolicy where
  | all
  | last
  | new
  | byStartSequence
  | byStartTime
  | lastPerSubject
  deriving DecidableEq

/- nats.AckPolicy. -/
inductive AckPolicy where
  | none
  | all
  | explicit
  deriving DecidableEq

/- nats.ReplayPolicy. -/
inductive ReplayPolicy where
  | instant
  | original
  deriving DecidableEq

/- The position struct: a resumable read cursor (five fields).  Timestamps
are modelled as Nat with 0 standing for the Go zero time.Time value. -/
structure Position where
  durable : String
  stream : String
  subject : String
  timestamp : Nat
  optSeq : Nat
  deriving DecidableEq

/-- Modelled from the spec: the position codec is not among the sources
(only its callers parsePosition / marshalSDKPosition appear in
iterator.go).  Spec 4.1 requires a self-describing structured encoding of
the five fields with the round-trip law decode(encode(p)) = p; strings are
length-prefixed here so that the encoding is injective. -/
def encodeStr (s : String) : List Nat :=
  s.length :: s.data.map Char.toNat

/-- Modelled from the spec: serializes the five position fields into an
opaque byte token (sdk.Position is a byte slice, modelled as List Nat). -/
def marshalSDKPosition (p : Position) : List Nat :=
  encodeStr p.durable ++ encodeStr p.stream ++ encodeStr p.subject ++
    [p.timestamp, p.optSeq]

/-- Modelled from the spec: reads back one length-prefixed string, returning
the decoded string and the remaining bytes; fails on malformed input. -/
def decodeStr (l : List Nat) : Except String (String × List Nat) :=
  match l with
  | [] => Except.error "malformed position"
  | n :: rest =>
    if n ≤ rest.length then
      let cs := rest.take n
      if cs.all (fun c => decide (Nat.isValidChar c)) then
        Except.ok (String.mk (cs.map Char.ofNat), rest.drop n)
      else Except.error "malformed position"
    else Except.error "malformed position"

/-- Modelled from the spec: decode(token).  On an empty token it returns the
zero-value position (signalling "no prior position") rather than failing; on
a malformed non-empty token it fails with a decoding error. -/
def parsePosition (bytes : List Nat) : Except String Position :=
  match bytes with
  | [] => Except.ok { durable := "", stream := "", subject := "",
                      timestamp := 0, optSeq := 0 }
  | _ => do
    let (durable, r1) ← decodeStr bytes
    let (stream, r2) ← decodeStr r1
    let (subject, r3) ← decodeStr r2
    match r3 with
    | [ts, seq] =>
      if seq < UINT64 then
        Except.ok { durable := durable, stream := stream, subject := subject,
                    timestamp := ts, optSeq := seq }
      else Except.error "malformed position"
    | _ => Except.error "malformed position"

/- The jetstream message metadata the iterator reads: the broker timestamp
(0 = Go zero time) and the uint64 stream sequence. -/
structure MsgMetadata where
  timestamp : Nat
  streamSeq : Nat
  deriving DecidableEq

/- A nats.Msg as the iterator sees it: payload bytes plus metadata.
meta = Option.none models a message whose Metadata() call returns an error
(the code handles that error path explicitly). -/
structure Msg where
  data : List Nat
  meta : Option MsgMetadata
  deriving DecidableEq

/- nats.ConsumerConfig, restricted to the fields the connector sets. -/
structure ConsumerConfig where
  durable : String
  replayPolicy : ReplayPolicy
  deliverSubject : String
  deliverPolicy : DeliverPolicy
  optStartSeq : Nat
  ackPolicy : AckPolicy
  flowControl : Bool
  heartbeat : Int
  deriving DecidableEq

/- nats.ConsumerInfo, restricted to the fields the iterator reads. -/
structure ConsumerInfo where
  name : String
  stream : String
  config : ConsumerConfig
  deriving DecidableEq

/- IteratorParams contains incoming params for the NewIterator function
(the connection handle and buffer size play no role in the modelled
operations beyond channel capacity). -/
structure IteratorParams where
  bufferSize : Nat
  durable : String
  stream : String
  subject : String
  sdkPosition : List Nat
  deliverPolicy : DeliverPolicy
  ackPolicy : AckPolicy
  deriving DecidableEq

/- getConsumerConfig returns a consumer config based on the incoming params
and a sdk.Position (iterator.go lines 172-200). -/
def getConsumerConfig (params : IteratorParams) : Except String ConsumerConfig :=
  match parsePosition params.sdkPosition with
  | Except.error e => Except.error ("parse position: " ++ e)
  | Except.ok position =>
    let dp := if position.optSeq ≠ 0 then DeliverPolicy.byStartSequence
              else params.deliverPolicy
    let startSeq := if position.optSeq ≠ 0 then position.optSeq else 0
    Except.ok
      { durable := params.durable
        replayPolicy := ReplayPolicy.instant
        deliverSubject := params.durable ++ "." ++ params.stream
        deliverPolicy := dp
        optStartSeq := startSeq
        ackPolicy := params.ackPolicy
        flowControl := true
        heartbeat := heartbeatTimeout }

/- The Iterator state: the buffered delivery channel (messages), the
unacknowledged queue, the consumer info and the subscription subject. -/
structure Iterator where
  messages : List Msg
  unackMessages : List Msg
  consumerInfo : ConsumerInfo
  subscriptionSubject : String
  deriving DecidableEq

/- The position record getMessagePosition builds for a message with the
given metadata (iterator.go lines 248-262): the stream sequence is
incremented by 1 in Go uint64 arithmetic. -/
def messagePositionRecord (i : Iterator) (md : MsgMetadata) : Position :=
  { durable := i.consumerInfo.name
    stream := i.consumerInfo.stream
    subject := i.subscriptionSubject
    timestamp := md.timestamp
    optSeq := (md.streamSeq + 1) % UINT64 }

/- getMessagePosition returns a position of a message in the form of
sdk.Position bytes (iterator.go lines 248-270); it fails when the message
metadata is unavailable. -/
def getMessagePosition (i : Iterator) (msg : Msg) : Except String (List Nat) :=
  match msg.meta with
  | none => Except.error "get message metadata: not a jetstream message"
  | some md => Except.ok (marshalSDKPosition (messagePositionRecord i md))

/- sdk.Record as produced by the iterator. -/
structure Record where
  position : List Nat
  createdAt : Nat
  payload : List Nat
  deriving DecidableEq

/- messageToRecord converts a message to a record (iterator.go lines
223-245); `now` is the wall-clock time time.Now() would return, used when
the broker timestamp is the zero value. -/
def messageToRecord (i : Iterator) (msg : Msg) (now : Nat) : Except String Record :=
  match getMessagePosition i msg with
  | Except.error e => Except.error ("get position: " ++ e)
  | Except.ok position =>
    match msg.meta with
    | none => Except.error "get message metadata: not a jetstream message"
    | some md =>
      let ts := if md.timestamp = 0 then now else md.timestamp
      Except.ok { position := position, createdAt := ts, payload := msg.data }

/- The error outcomes of Next. -/
inductive NextErr where
  | convert (e : String)
  | cancelled
  deriving DecidableEq

/- The message-arrival branch of Next (iterator.go lines 100-113): none when
the channel is empty (the select would block); otherwise the head message is
received from the channel, converted, and appended to the unacknowledged
queue when the ack policy is not none.  A failed conversion returns the
wrapped error with the message already removed from the channel. -/
def nextRecv (i : Iterator) (now : Nat) : Option (Except NextErr Record × Iterator) :=
  match i.messages with
  | [] => none
  | msg :: rest =>
    match messageToRecord i msg now with
    | Except.error e =>
      some (Except.error (NextErr.convert ("convert message to record: " ++ e)),
            { i with messages := rest })
    | Except.ok r =>
      if i.consumerInfo.config.ackPolicy ≠ AckPolicy.none then
        some (Except.ok r,
              { i with messages := rest,
                       unackMessages := i.unackMessages ++ [msg] })
      else
        some (Except.ok r, { i with messages := rest })

/- Next as a relation, capturing the nondeterminism of Go select between the
message channel and ctx.Done() (iterator.go lines 99-118): the deliver rule
fires when the channel is non-empty, the cancel rule when the cancellation
signal has fired; cancellation returns ctx.Err() and leaves the state
untouched. -/
inductive NextRel (now : Nat) (cancelled : Bool) (i : Iterator) :
    Except NextErr Record × Iterator → Prop where
  | deliver (out : Except NextErr Record × Iterator) :
      nextRecv i now = some out → NextRel now cancelled i out
  | cancel : cancelled = true →
      NextRel now cancelled i (Except.error NextErr.cancelled, i)

/- The error outcomes of Ack. -/
inductive AckErr where
  | noUnacknowledged
  | getPos (e : String)
  | outOfOrder
  | brokerAck
  deriving DecidableEq

/- canAck checks if a message at the given position can be acknowledged
(iterator.go lines 203-220): empty queue, head-position derivation failure,
and byte-inequality with the requested position are the failure cases. -/
def canAck (i : Iterator) (sdkPosition : List Nat) : Except AckErr Unit :=
  match i.unackMessages with
  | [] => Except.error AckErr.noUnacknowledged
  | m :: _ =>
    match getMessagePosition i m with
    | Except.error e => Except.error (AckErr.getPos e)
    | Except.ok position =>
      if position = sdkPosition then Except.ok ()
      else Except.error AckErr.outOfOrder

/- Ack acknowledges a message at the given position (iterator.go lines
121-142).  brokerAckOk is the outcome of the broker-side Ack() call on the
head message.  The result carries the new state and the list of messages on
which a broker acknowledge was attempted. -/
def Ack (i : Iterator) (sdkPosition : List Nat) (brokerAckOk : Bool) :
    Except AckErr Unit × Iterator × List Msg :=
  if i.consumerInfo.config.ackPolicy = AckPolicy.none then
    (Except.ok (), i, [])
  else
    match canAck i sdkPosition with
    | Except.error e => (Except.error e, i, [])
    | Except.ok _ =>
      match i.unackMessages with
      | [] => (Except.error AckErr.noUnacknowledged, i, [])
      | m :: rest =>
        if brokerAckOk then
          (Except.ok (), { i with unackMessages := rest }, [m])
        else
          (Except.error AckErr.brokerAck, i, [m])

/- One consumer-facing operation on the iterator, for reasoning about
operation sequences. -/
inductive Op where
  | next (now : Nat)
  | ack (pos : List Nat) (ackOk : Bool)

/- The state reached after one operation: a blocked or cancelled Next leaves
the state unchanged; otherwise the operation's state update applies. -/
def applyOp (i : Iterator) : Op → Iterator
  | Op.next now =>
    match nextRecv i now with
    | none => i
    | some out => out.2
  | Op.ack pos ackOk => (Ack i pos ackOk).2.1

/- The state reached after a sequence of operations. -/
def runOps (i : Iterator) (ops : List Op) : Iterator :=
  ops.foldl applyOp i

/- nats publish options, restricted to the two the writer derives. -/
inductive PubOpt where
  | retryWait (d : Int)
  | retryAttempts (n : Int)
  deriving DecidableEq

/- WriterParams is an incoming params for the NewWriter function. -/
structure WriterParams where
  subject : String
  batchSize : Int
  retryWait : Int
  retryAttempts : Int
  deriving DecidableEq

/- getPublishOptions returns NATS publish options based on the provided
WriterParams (writer.go lines 93-105). -/
def getPublishOptions (params : WriterParams) : List PubOpt :=
  (if params.retryWait ≠ 0 then [PubOpt.retryWait params.retryWait] else []) ++
    (if params.retryAttempts ≠ 0 then [PubOpt.retryAttempts params.retryAttempts]
     else [])

/- The Writer state (writer.go lines 29-39). -/
structure NatsWriter where
  subject : String
  batchSize : Int
  publishOpts : List PubOpt
  retryWait : Int
  retryAttempts : Int
  deriving DecidableEq

/- NewWriter creates a new instance of the Writer (writer.go lines 51-66). -/
def NewWriter (params : WriterParams) : NatsWriter :=
  { subject := params.subject
    batchSize := params.batchSize
    publishOpts := getPublishOptions params
    retryWait := params.retryWait
    retryAttempts := params.retryAttempts }

/- The part of sdk.Record the writer consumes: the raw after-payload. -/
structure SDKRecord where
  payloadAfter : List Nat
  deriving DecidableEq

/- One publish call made to the broker: subject, payload bytes, options. -/
structure PublishCall where
  subject : String
  data : List Nat
  opts : List PubOpt
  deriving DecidableEq

/- The error outcomes of Write. -/
inductive WriteErr where
  | notImplemented
  | publish (e : String)
  deriving DecidableEq

/- Write (writer.go lines 70-81): a batch size above 1 fails immediately
with sdk.ErrUnimplemented and publishes nothing; otherwise one synchronous
publish of the record's after-payload is made, whose broker outcome is the
pubResult parameter, and a failure is wrapped and surfaced.  The result
carries the list of publish calls made. -/
def Write (w : NatsWriter) (record : SDKRecord) (pubResult : Except String Unit) :
    Except WriteErr Unit × List PublishCall :=
  if w.batchSize > 1 then
    (Except.error WriteErr.notImplemented, [])
  else
    match pubResult with
    | Except.error e =>
      (Except.error (WriteErr.publish ("publish sync: " ++ e)),
       [{ subject := w.subject, data := record.payloadAfter, opts := w.publishOpts }])
    | Except.ok _ =>
      (Except.ok (),
       [{ subject := w.subject, data := record.payloadAfter, opts := w.publishOpts }])

/- Concrete fixtures used by witnesses and counterexamples. -/
def configExplicit : ConsumerConfig :=
  { durable := "d", replayPolicy := ReplayPolicy.instant, deliverSubject := "d.s",
    deliverPolicy := DeliverPolicy.all, optStartSeq := 0,
    ackPolicy := AckPolicy.explicit, flowControl := true,
    heartbeat := heartbeatTimeout }

def infoExplicit : ConsumerInfo :=
  { name := "d", stream := "s", config := configExplicit }

def configAckNone : ConsumerConfig :=
  { configExplicit with ackPolicy := AckPolicy.none }

def infoAckNone : ConsumerInfo :=
  { infoExplicit with config := configAckNone }

def msgW : Msg := { data := [1, 2], meta := some { timestamp := 3, streamSeq := 10 } }

def iW : Iterator :=
  { messages := [], unackMessages := [msgW], consumerInfo := infoExplicit,
    subscriptionSubject := "subj" }

def posW : List Nat :=
  marshalSDKPosition (messagePositionRecord iW { timestamp := 3, streamSeq := 10 })

def iEmpty : Iterator :=
  { messages := [], unackMessages := [], consumerInfo := infoExplicit,
    subscriptionSubject := "subj" }

def msgBad : Msg := { data := [7], meta := none }

def iDrop : Iterator :=
  { messages := [msgBad], unackMessages := [], consumerInfo := infoExplicit,
    subscriptionSubject := "subj" }

def iNone : Iterator :=
  { messages := [msgW], unackMessages := [], consumerInfo := infoAckNone,
    subscriptionSubject := "subj" }

def opsW : List Op := [Op.next 0, Op.ack posW true, Op.next 1]

def msgZeroTs : Msg := { data := [9], meta := some { timestamp := 0, streamSeq := 2 } }

def paramsW : IteratorParams :=
  { bufferSize := 64, durable := "d", stream := "s", subject := "subj",
    sdkPosition := [], deliverPolicy := DeliverPolicy.all,
    ackPolicy := AckPolicy.explicit }

def iDeliver : Iterator :=
  { messages := [msgW], unackMessages := [], consumerInfo := infoExplicit,
    subscriptionSubject := "subj" }

def recW : Record :=
  { position := marshalSDKPosition (messagePositionRecord iDeliver { timestamp := 3, streamSeq := 10 }),
    createdAt := 3, payload := [1, 2] }

def outW : Except NextErr Record × Iterator :=
  (Except.ok recW, { iDeliver with messages := [], unackMessages := [msgW] })

/-- Claim C1: with an ack policy other than none, Ack fails with
noUnacknowledged on an empty queue; on a non-empty queue whose head has
derivable position headPos, it fails with outOfOrder leaving the state
unchanged when headPos is not byte-equal to the requested position, and
otherwise (broker ack succeeding) acknowledges exactly the head with the
broker and pops exactly the head. -/
theorem Ack_strict_fifo (i : Iterator) (pos headPos : List Nat) (ackOk : Bool)
    (hp : i.consumerInfo.config.ackPolicy ≠ AckPolicy.none) :
    (i.unackMessages = [] →
      Ack i pos ackOk = (Except.error AckErr.noUnacknowledged, i, [])) ∧
    (∀ m rest, i.unackMessages = m :: rest →
      getMessagePosition i m = Except.ok headPos →
      (headPos ≠ pos →
        Ack i pos ackOk = (Except.error AckErr.outOfOrder, i, [])) ∧
      (headPos = pos → ackOk = true →
        Ack i pos ackOk = (Except.ok (), { i with unackMessages := rest }, [m]))) := by
  constructor
  · intro hq
    simp [Ack, hp, canAck, hq]
  · intro m rest hq hm
    constructor
    · intro hne
      simp [Ack, hp, canAck, hq, hm, hne]
    · intro he hok
      subst he
      subst hok
      simp [Ack, hp, canAck, hq, hm]

/-- Witness for C1: a concrete in-order ack of the single queued message
succeeds and pops it. -/
theorem Ack_strict_fifo_witness :
    Ack iW posW true = (Except.ok (), { iW with unackMessages := [] }, [msgW]) :=
  ((Ack_strict_fifo iW posW posW true (by decide)).2 msgW [] rfl rfl).2 rfl rfl

/-- Claim C10: when the broker acknowledge of the head message fails, Ack
surfaces the failure and leaves the unacknowledged queue completely
unchanged; the head is removed only after a successful broker ack. -/
theorem Ack_broker_failure_atomic (i : Iterator) (pos headPos : List Nat)
    (m : Msg) (rest : List Msg)
    (hp : i.consumerInfo.config.ackPolicy ≠ AckPolicy.none)
    (hq : i.unackMessages = m :: rest)
    (hm : getMessagePosition i m = Except.ok headPos)
    (he : headPos = pos) :
    Ack i pos false = (Except.error AckErr.brokerAck, i, [m]) := by
  subst he
  simp [Ack, hp, canAck, hq, hm]

/-- Witness for C10: a concrete matching ack whose broker call fails leaves
the iterator unchanged. -/
theorem Ack_broker_failure_atomic_witness :
    Ack iW posW false = (Except.error AckErr.brokerAck, iW, [msgW]) :=
  Ack_broker_failure_atomic iW posW posW msgW [] (by decide) rfl rfl rfl

/- One operation never changes the consumer info (and hence the ack
policy): Next only touches the channel and the queue, Ack only the queue. -/
theorem applyOp_consumerInfo (i : Iterator) (op : Op) :
    (applyOp i op).consumerInfo = i.consumerInfo := by
  cases op with
  | next now =>
    cases hq : i.messages with
    | nil => simp [applyOp, nextRecv, hq]
    | cons msg rest =>
      cases hr : messageToRecord i msg now with
      | error e => simp [applyOp, nextRecv, hq, hr]
      | ok r =>
        by_cases hp : i.consumerInfo.config.ackPolicy = AckPolicy.none
        · simp [applyOp, nextRecv, hq, hr, hp]
        · simp [applyOp, nextRecv, hq, hr, hp]
  | ack pos ackOk =>
    by_cases hp : i.consumerInfo.config.ackPolicy = AckPolicy.none
    · simp [applyOp, Ack, hp]
    · cases hc : canAck i pos with
      | error e => simp [applyOp, Ack, hp, hc]
      | ok u =>
        cases hq : i.unackMessages with
        | nil => simp [applyOp, Ack, hp, hc, hq]
        | cons m rest =>
          cases ackOk
          · simp [applyOp, Ack, hp, hc, hq]
          · simp [applyOp, Ack, hp, hc, hq]

/- Under ack policy none, no operation changes the unacknowledged queue. -/
theorem applyOp_unack_none (i : Iterator) (op : Op)
    (h : i.consumerInfo.config.ackPolicy = AckPolicy.none) :
    (applyOp i op).unackMessages = i.unackMessages := by
  cases op with
  | next now =>
    cases hq : i.messages with
    | nil => simp [applyOp, nextRecv, hq]
    | cons msg rest =>
      cases hr : messageToRecord i msg now with
      | error e => simp [applyOp, nextRecv, hq, hr]
      | ok r => simp [applyOp, nextRecv, hq, hr, h]
  | ack pos ackOk => simp [applyOp, Ack, h]

/- Under ack policy none, no sequence of operations changes the
unacknowledged queue. -/
theorem runOps_unack_none (i : Iterator) (ops : List Op)
    (h : i.consumerInfo.config.ackPolicy = AckPolicy.none) :
    (runOps i ops).unackMessages = i.unackMessages := by
  induction ops generalizing i with
  | nil => rfl
  | cons op ops ih =>
    have h2 : (applyOp i op).consumerInfo.config.ackPolicy = AckPolicy.none := by
      rw [applyOp_consumerInfo]
      exact h
    calc (runOps i (op :: ops)).unackMessages
        = (runOps (applyOp i op) ops).unackMessages := rfl
      _ = (applyOp i op).unackMessages := ih (applyOp i op) h2
      _ = i.unackMessages := applyOp_unack_none i op h

/-- Claim C3: when the ack policy is none, every Ack call returns success
with the state untouched and no broker ack attempted, no sequence of
Next/Ack operations ever changes the unacknowledged queue, and a queue
starting empty stays empty forever. -/
theorem ack_none_bypass (i : Iterator) (pos : List Nat) (ackOk : Bool)
    (ops : List Op)
    (h : i.consumerInfo.config.ackPolicy = AckPolicy.none) :
    Ack i pos ackOk = (Except.ok (), i, []) ∧
    (runOps i ops).unackMessages = i.unackMessages ∧
    (i.unackMessages = [] → (runOps i ops).unackMessages = []) := by
  refine ⟨by simp [Ack, h], runOps_unack_none i ops h, fun he => ?_⟩
  rw [runOps_unack_none i ops h, he]

/-- Witness for C3: a concrete iterator with ack policy none, run through a
Next / Ack / Next sequence. -/
theorem ack_none_bypass_witness :
    Ack iNone [] true = (Except.ok (), iNone, []) ∧
    (runOps iNone opsW).unackMessages = iNone.unackMessages ∧
    (iNone.unackMessages = [] → (runOps iNone opsW).unackMessages = []) :=
  ack_none_bypass iNone [] true opsW rfl

/-- Claim C6: when the cancellation signal has fired while Next is blocked
(the delivery channel is empty), the only possible outcome of Next is the
cancellation error with the iterator state completely unchanged. -/
theorem next_cancel_no_side_effect (i : Iterator) (now : Nat)
    (out : Except NextErr Record × Iterator)
    (hempty : i.messages = []) (h : NextRel now true i out) :
    out = (Except.error NextErr.cancelled, i) := by
  cases h with
  | deliver o ho => simp [nextRecv, hempty] at ho
  | cancel hc => rfl

/-- Witness for C6: the cancellation outcome at a concrete empty iterator. -/
theorem next_cancel_no_side_effect_witness :
    ((Except.error NextErr.cancelled, iEmpty) : Except NextErr Record × Iterator) =
      (Except.error NextErr.cancelled, iEmpty) :=
  next_cancel_no_side_effect iEmpty 0 (Except.error NextErr.cancelled, iEmpty) rfl
    (NextRel.cancel rfl)

/-- Counterexample for C5: a message whose metadata is unavailable is
removed from the delivery channel by the deliver branch of Next, an error is
returned instead of a record, and the message is not retained in the
unacknowledged queue (ack policy is explicit here): the message is dropped. -/
theorem next_drop_counterexample :
    nextRecv iDrop 0 =
      some (Except.error (NextErr.convert
        "convert message to record: get position: get message metadata: not a jetstream message"),
        { iDrop with messages := [] }) ∧
    iDrop.messages = [msgBad] ∧
    iDrop.unackMessages = [] ∧
    iDrop.consumerInfo.config.ackPolicy = AckPolicy.explicit ∧
    ({ iDrop with messages := [] } : Iterator).unackMessages = [] :=
  ⟨rfl, rfl, rfl, rfl, rfl⟩

/-- Claim C5 as amended: a message whose conversion to a record succeeds is
never dropped: the deliver branch of Next removes it from the channel,
returns it as the record, and appends the raw message to the unacknowledged
queue exactly when the ack policy is not none.  (A message whose conversion
fails — metadata unavailable — is removed and dropped with an error, see the
counterexample.) -/
theorem next_no_drop_on_success (i : Iterator) (now : Nat)
    (out : Except NextErr Record × Iterator) (msg : Msg) (rest : List Msg)
    (r : Record)
    (hq : i.messages = msg :: rest)
    (hrecv : nextRecv i now = some out)
    (hr : messageToRecord i msg now = Except.ok r) :
    out.1 = Except.ok r ∧ out.2.messages = rest ∧
    (i.consumerInfo.config.ackPolicy ≠ AckPolicy.none →
      out.2.unackMessages = i.unackMessages ++ [msg]) ∧
    (i.consumerInfo.config.ackPolicy = AckPolicy.none →
      out.2.unackMessages = i.unackMessages) := by
  by_cases hp : i.consumerInfo.config.ackPolicy = AckPolicy.none
  · have hcomp : nextRecv i now = some (Except.ok r, { i with messages := rest }) := by
      simp [nextRecv, hq, hr, hp]
    rw [hcomp] at hrecv
    injection hrecv with h2
    subst h2
    exact ⟨rfl, rfl, fun hne => absurd hp hne, fun _ => rfl⟩
  · have hcomp : nextRecv i now =
        some (Except.ok r,
          { i with messages := rest, unackMessages := i.unackMessages ++ [msg] }) := by
      simp [nextRecv, hq, hr, hp]
    rw [hcomp] at hrecv
    injection hrecv with h2
    subst h2
    exact ⟨rfl, rfl, fun _ => rfl, fun hc => absurd hc hp⟩

/-- Witness for C5 (amended): a concrete successful delivery returns the
record and appends the message to the queue. -/
theorem next_no_drop_on_success_witness :
    outW.1 = Except.ok recW ∧ outW.2.messages = [] ∧
    (iDeliver.consumerInfo.config.ackPolicy ≠ AckPolicy.none →
      outW.2.unackMessages = iDeliver.unackMessages ++ [msgW]) ∧
    (iDeliver.consumerInfo.config.ackPolicy = AckPolicy.none →
      outW.2.unackMessages = iDeliver.unackMessages) :=
  next_no_drop_on_success iDeliver 0 outW msgW [] recW rfl rfl rfl

/-- Counterexample for C4: the source computes optSeq with Go uint64
arithmetic (metadata.Sequence.Stream + 1 wraps modulo 2^64), so for the
maximal stream sequence the derived optSeq is 0, not the successor. -/
theorem optSeq_wrap_counterexample :
    (messagePositionRecord iW { timestamp := 0, streamSeq := UINT64 - 1 }).optSeq = 0 ∧
    (UINT64 - 1) + 1 = UINT64 ∧
    (messagePositionRecord iW { timestamp := 0, streamSeq := UINT64 - 1 }).optSeq ≠
      (UINT64 - 1) + 1 := by
  refine ⟨?_, ?_, ?_⟩ <;> decide

/-- Claim C4 as amended: the derived optSeq is (s + 1) mod 2^64; for every
message whose stream sequence satisfies s + 1 < 2^64 (every uint64 value but
the maximal one) the position derived by getMessagePosition carries
optSeq = s + 1, and two such messages with s1 < s2 derive strictly
increasing optSeq values. -/
theorem getMessagePosition_optSeq_succ (i : Iterator) (msg : Msg)
    (m1 m2 : MsgMetadata)
    (hm : msg.meta = some m2)
    (h2 : m2.streamSeq + 1 < UINT64)
    (h1 : m1.streamSeq < m2.streamSeq) :
    getMessagePosition i msg =
      Except.ok (marshalSDKPosition (messagePositionRecord i m2)) ∧
    (messagePositionRecord i m2).optSeq = m2.streamSeq + 1 ∧
    (messagePositionRecord i m1).optSeq < (messagePositionRecord i m2).optSeq := by
  have e2 : (messagePositionRecord i m2).optSeq = m2.streamSeq + 1 :=
    Nat.mod_eq_of_lt h2
  have le1 : (messagePositionRecord i m1).optSeq ≤ m1.streamSeq + 1 :=
    Nat.mod_le _ _
  refine ⟨by simp [getMessagePosition, hm], e2, ?_⟩
  rw [e2]
  exact lt_of_le_of_lt (le_trans le1 (Nat.succ_le_of_lt h1)) (Nat.lt_succ_self _)

/-- Witness for C4 (amended): concrete sequences 4 and 10 derive optSeq 5
and 11. -/
theorem getMessagePosition_optSeq_succ_witness :
    getMessagePosition iW msgW =
      Except.ok (marshalSDKPosition (messagePositionRecord iW { timestamp := 3, streamSeq := 10 })) ∧
    (messagePositionRecord iW { timestamp := 3, streamSeq := 10 }).optSeq = 10 + 1 ∧
    (messagePositionRecord iW { timestamp := 0, streamSeq := 4 }).optSeq <
      (messagePositionRecord iW { timestamp := 3, streamSeq := 10 }).optSeq :=
  getMessagePosition_optSeq_succ iW msgW { timestamp := 0, streamSeq := 4 }
    { timestamp := 3, streamSeq := 10 } rfl (by decide) (by decide)

/-- Claim C9: a message with the zero broker timestamp is converted to a
record whose createdAt is the wall-clock time at conversion (hence non-zero
for any positive clock); a non-zero broker timestamp is kept as createdAt. -/
theorem messageToRecord_timestamp_fallback (i : Iterator) (msg : Msg)
    (md : MsgMetadata) (now : Nat)
    (hm : msg.meta = some md) (hnow : 0 < now) :
    ∃ r, messageToRecord i msg now = Except.ok r ∧
      (md.timestamp = 0 → r.createdAt = now ∧ r.createdAt ≠ 0) ∧
      (md.timestamp ≠ 0 → r.createdAt = md.timestamp) := by
  refine ⟨{ position := marshalSDKPosition (messagePositionRecord i md),
            createdAt := if md.timestamp = 0 then now else md.timestamp,
            payload := msg.data }, ?_, ?_, ?_⟩
  · simp [messageToRecord, getMessagePosition, hm]
  · intro h0
    refine ⟨?_, ?_⟩
    · show (if md.timestamp = 0 then now else md.timestamp) = now
      rw [if_pos h0]
    · show (if md.timestamp = 0 then now else md.timestamp) ≠ 0
      rw [if_pos h0]
      exact Nat.pos_iff_ne_zero.mp hnow
  · intro h0
    show (if md.timestamp = 0 then now else md.timestamp) = md.timestamp
    rw [if_neg h0]

/-- Witness for C9: a concrete zero-timestamp message converted at clock 5
gets createdAt 5. -/
theorem messageToRecord_timestamp_fallback_witness :
    ∃ r, messageToRecord iW msgZeroTs 5 = Except.ok r ∧
      ((0 : Nat) = 0 → r.createdAt = 5 ∧ r.createdAt ≠ 0) ∧
      ((0 : Nat) ≠ 0 → r.createdAt = 0) :=
  messageToRecord_timestamp_fallback iW msgZeroTs { timestamp := 0, streamSeq := 2 } 5
    rfl (by decide)

/-- Claim C2: for every parameter set whose position token decodes to p, the
built consumer configuration overrides the delivery policy with
deliver-by-start-sequence and carries start sequence p.optSeq exactly when
p.optSeq is non-zero, and otherwise keeps the configured delivery policy
with start sequence 0. -/
theorem getConsumerConfig_resume (params : IteratorParams) (p : Position)
    (h : parsePosition params.sdkPosition = Except.ok p) :
    ∃ cfg, getConsumerConfig params = Except.ok cfg ∧
      (p.optSeq ≠ 0 → cfg.deliverPolicy = DeliverPolicy.byStartSequence ∧
        cfg.optStartSeq = p.optSeq) ∧
      (p.optSeq = 0 → cfg.deliverPolicy = params.deliverPolicy ∧
        cfg.optStartSeq = 0) := by
  refine ⟨{ durable := params.durable
            replayPolicy := ReplayPolicy.instant
            deliverSubject := params.durable ++ "." ++ params.stream
            deliverPolicy := if p.optSeq ≠ 0 then DeliverPolicy.byStartSequence
                             else params.deliverPolicy
            optStartSeq := if p.optSeq ≠ 0 then p.optSeq else 0
            ackPolicy := params.ackPolicy
            flowControl := true
            heartbeat := heartbeatTimeout }, ?_, ?_, ?_⟩
  · simp [getConsumerConfig, h]
  · intro hne
    simp [hne]
  · intro h0
    simp [h0]

/-- Witness for C2: the empty token decodes to the zero position, and the
built config keeps the configured delivery policy with start sequence 0. -/
theorem getConsumerConfig_resume_witness :
    ∃ cfg, getConsumerConfig paramsW = Except.ok cfg ∧
      ((0 : Nat) ≠ 0 → cfg.deliverPolicy = DeliverPolicy.byStartSequence ∧
        cfg.optStartSeq = 0) ∧
      ((0 : Nat) = 0 → cfg.deliverPolicy = DeliverPolicy.all ∧
        cfg.optStartSeq = 0) :=
  getConsumerConfig_resume paramsW
    { durable := "", stream := "", subject := "", timestamp := 0, optSeq := 0 } rfl

/-- Claim C7: Write with a configured batch size above 1 fails immediately
with notImplemented and makes no publish call; with batch size 1 it makes
exactly one synchronous publish of the record's after-payload to the
configured subject with the derived options, returning success on broker
success and the wrapped publish error on broker failure. -/
theorem Write_gate (w : NatsWriter) (record : SDKRecord)
    (pubResult : Except String Unit) :
    (w.batchSize > 1 →
      Write w record pubResult = (Except.error WriteErr.notImplemented, [])) ∧
    (w.batchSize = 1 → pubResult = Except.ok () →
      Write w record pubResult = (Except.ok (),
        [{ subject := w.subject, data := record.payloadAfter, opts := w.publishOpts }])) ∧
    (w.batchSize = 1 → ∀ e, pubResult = Except.error e →
      Write w record pubResult =
        (Except.error (WriteErr.publish ("publish sync: " ++ e)),
         [{ subject := w.subject, data := record.payloadAfter, opts := w.publishOpts }])) := by
  refine ⟨?_, ?_, ?_⟩
  · intro hb
    simp [Write, hb]
  · intro hb hok
    subst hok
    simp [Write, hb]
  · intro hb e he
    subst he
    simp [Write, hb]

/-- Claim C8: the publish option builder is a total pure function of the
retry parameters: the resulting option set is empty exactly when both are
zero, contains a retry-wait option exactly when retryWait is non-zero,
contains a retry-attempts option exactly when retryAttempts is non-zero, and
two non-zero inputs yield exactly the two options carrying those values. -/
theorem getPublishOptions_pure (s : String) (b w a : Int) :
    (getPublishOptions { subject := s, batchSize := b, retryWait := w, retryAttempts := a } = []
      ↔ (w = 0 ∧ a = 0)) ∧
    ((w ≠ 0 ∧ a ≠ 0) →
      getPublishOptions { subject := s, batchSize := b, retryWait := w, retryAttempts := a } =
        [PubOpt.retryWait w, PubOpt.retryAttempts a]) ∧
    ((∃ x, PubOpt.retryWait x ∈
        getPublishOptions { subject := s, batchSize := b, retryWait := w, retryAttempts := a })
      ↔ w ≠ 0) ∧
    ((∃ x, PubOpt.retryAttempts x ∈
        getPublishOptions { subject := s, batchSize := b, retryWait := w, retryAttempts := a })
      ↔ a ≠ 0) := by
  by_cases hw : w = 0 <;> by_cases ha : a = 0 <;>
    simp [getPublishOptions, hw, ha]
